import Mathlib

/-!
# Verification of the depression-detection inference pipeline

Shallow embedding of `ml_services.py` (class `MLService`) from the
Depression_dectection repository, together with proofs of the spec claims
about the PHQ-9 questionnaire scorer, the journal-text analysis pipeline,
the rule-based fallback estimator and the two recommendation tables.

Modelling conventions:
* Python `int` responses are `ℤ`; VADER sentiment scores (Python floats that
  are only compared against decimal thresholds, never combined
  arithmetically) are `ℚ`.
* `analyze_journal_text` calls external ML artifacts (BERT, the scaler and
  the logistic classifier).  Their outcomes are passed in explicitly:
  `embOutcome` is the outcome of the `try` block inside
  `get_bert_embedding` (an exception or an embedding vector), and
  `mlOutcome` is the outcome of the feature-fusion / scaling / prediction
  block inside `analyze_journal_text`'s own `try` (an exception or a
  `(prediction, confidence)` pair).  `vader` stands for the value returned
  by `get_vader_scores text`.
* A Python dict result is a structure whose optional keys are `Option`
  fields; a raised exception is the `Except.error` branch.
-/

namespace MLService

/-- VADER sentiment scores as returned by `get_vader_scores`:
`{"positive", "negative", "neutral", "compound"}`. -/
structure VaderScores where
  positive : ℚ
  negative : ℚ
  neutral : ℚ
  compound : ℚ
deriving DecidableEq, Repr

/-- The dict returned by `analyze_phq9` on success. -/
structure PHQ9Result where
  total_score : ℤ
  max_score : ℤ
  severity : String
  description : String
  recommendations : List String
  analysis_type : String
deriving DecidableEq, Repr

/-- The severity-dependent base list built by the `if`/`elif` chain of
`_get_phq9_recommendations` (lines 292–322), before the urgent advisory is
considered. -/
def phq9BaseRecs (severity : String) : List String :=
  if severity = "Minimal" then
    ["Continue maintaining good mental health habits",
     "Practice regular self-care activities",
     "Stay connected with supportive people",
     "Consider journaling to track your mood"]
  else if severity = "Mild" then
    ["Consider talking to a counselor or therapist",
     "Engage in regular physical activity",
     "Practice stress management techniques",
     "Maintain a regular sleep schedule",
     "Connect with friends and family"]
  else if severity = "Moderate" then
    ["Strongly consider professional counseling",
     "Discuss your symptoms with a healthcare provider",
     "Consider mindfulness or meditation practices",
     "Maintain social connections",
     "Avoid alcohol and substance use"]
  else  -- Moderately Severe or Severe
    ["Seek immediate professional help",
     "Contact your healthcare provider",
     "Consider medication evaluation",
     "Inform trusted friends or family about your situation",
     "Remove access to means of self-harm"]

/-- The urgent-escalation advisory inserted at position 0 when `score >= 15`. -/
def urgentAdvisory : String := "⚠️ Consider immediate professional support"

/-- `MLService._get_phq9_recommendations` (lines 288–327): severity-band base
list, then `recommendations.insert(0, ...)` when `score >= 15`. -/
def _get_phq9_recommendations (severity : String) (score : ℤ) : List String :=
  let recommendations := phq9BaseRecs severity
  if score ≥ 15 then urgentAdvisory :: recommendations else recommendations

/-- The `if`/`elif` chain of `analyze_phq9` (lines 173–187) mapping the
total score to the `(severity, description)` pair. -/
def phq9Severity (total_score : ℤ) : String × String :=
  if total_score ≤ 4 then ("Minimal", "Minimal or no depression")
  else if total_score ≤ 9 then ("Mild", "Mild depression")
  else if total_score ≤ 14 then ("Moderate", "Moderate depression")
  else if total_score ≤ 19 then ("Moderately Severe", "Moderately severe depression")
  else ("Severe", "Severe depression")

/-- `MLService.analyze_phq9` (lines 164–199).  Raises `ValueError` when the
response list does not have length 9; otherwise sums the responses and maps
the total through the inclusive severity breakpoints. -/
def analyze_phq9 (responses : List ℤ) : Except String PHQ9Result :=
  if responses.length ≠ 9 then
    Except.error "PHQ-9 requires exactly 9 responses"
  else
    let total_score := responses.sum
    Except.ok
      { total_score := total_score
        max_score := 27
        severity := (phq9Severity total_score).1
        description := (phq9Severity total_score).2
        recommendations := _get_phq9_recommendations (phq9Severity total_score).1 total_score
        analysis_type := "PHQ-9" }

/-- Advisory appended by `_get_journal_recommendations` when
`vader_scores["negative"] > 0.3`. -/
def negativeAdvisory : String := "Consider challenging negative thought patterns"

/-- Advisory appended by `_get_journal_recommendations` when
`vader_scores["positive"] < 0.1`. -/
def positiveAdvisory : String := "Try to identify and engage in pleasant activities"

/-- The severity-dependent base list built by the `if`/`elif` chain of
`_get_journal_recommendations` (lines 333–360), before the VADER-dependent
advisories are appended. -/
def journalBaseRecs (severity : String) : List String :=
  if severity = "Minimal" then
    ["Continue expressing your thoughts through writing",
     "Practice gratitude journaling",
     "Celebrate small victories",
     "Maintain healthy routines"]
  else if severity = "Mild" then
    ["Continue regular journaling",
     "Focus on positive coping strategies",
     "Consider talking to someone you trust",
     "Practice self-compassion"]
  else if severity = "Moderate" then
    ["Consider professional support",
     "Use journaling to identify patterns",
     "Practice mindfulness techniques",
     "Maintain social connections"]
  else  -- Severe
    ["Seek professional help immediately",
     "Share your concerns with trusted people",
     "Use journaling as a tool with professional guidance",
     "Focus on safety and self-care"]

/-- `MLService._get_journal_recommendations` (lines 329–368): severity-band
base list, then the two independent VADER-score-dependent appends. -/
def _get_journal_recommendations (severity : String)
    (vader_scores : VaderScores) : List String :=
  let recommendations := journalBaseRecs severity
  let recommendations :=
    if vader_scores.negative > 0.3 then recommendations ++ [negativeAdvisory]
    else recommendations
  if vader_scores.positive < 0.1 then recommendations ++ [positiveAdvisory]
  else recommendations

/-- The dict returned by `_fallback_analysis`, merged into the journal
results via `results.update(...)`. -/
structure FallbackResult where
  predicted_severity : String
  confidence : ℚ
  method : String
  recommendations : List String
deriving DecidableEq, Repr

/-- `MLService._fallback_analysis` (lines 268–286): rule-based severity from
the compound and negative VADER scores, fixed confidence 0.7, method
`"rule_based"`. -/
def _fallback_analysis (vader_scores : VaderScores) : FallbackResult :=
  let compound := vader_scores.compound
  let negative := vader_scores.negative
  let severity :=
    if compound ≤ -0.5 ∨ negative ≥ 0.4 then "Moderate"
    else if compound ≤ -0.2 ∨ negative ≥ 0.2 then "Mild"
    else "Minimal"
  { predicted_severity := severity
    confidence := 0.7
    method := "rule_based"
    recommendations := _get_journal_recommendations severity vader_scores }

/-- The artifact flags of an `MLService` instance that `analyze_journal_text`
and `get_bert_embedding` consult: whether `bert_model` and `bert_tokenizer`
are set, and the `model_loaded` flag computed by `_load_models`. -/
structure MLFlags where
  bert_model : Bool
  bert_tokenizer : Bool
  model_loaded : Bool
deriving DecidableEq, Repr

/-- The dict built by `analyze_journal_text`; absent keys are `none`. -/
structure JournalResult where
  error : Option String
  text_length : Option Nat
  word_count : Option Nat
  vader_scores : Option VaderScores
  ml_prediction : Option ℤ
  predicted_severity : Option String
  confidence : Option ℚ
  bert_embedding : Option (List ℚ)
  recommendations : Option (List String)
  ml_error : Option String
  method : Option String
  analysis_type : String
deriving Repr

/-- Python's `str.strip()`: remove leading and trailing whitespace. -/
def pyStrip (text : String) : String :=
  String.mk (((text.data.dropWhile Char.isWhitespace).reverse.dropWhile
    Char.isWhitespace).reverse)

/-- Counts maximal whitespace-free runs; `inWord` records whether the
previous character was part of a word. -/
def wordCountAux : List Char → Bool → Nat
  | [], _ => 0
  | c :: cs, inWord =>
    if c.isWhitespace then wordCountAux cs false
    else (if inWord then 0 else 1) + wordCountAux cs true

/-- `len(text.split())` in Python: the number of whitespace-separated words. -/
def wordCount (text : String) : Nat :=
  wordCountAux text.data false

/-- `MLService.get_bert_embedding` (lines 117–144): `None` when the encoder
or tokenizer is missing; otherwise the `try` block either yields an
embedding or raises, and a raised exception is caught, logged and turned
into `None`.  `embOutcome` is the outcome of that `try` block. -/
def get_bert_embedding (flags : MLFlags)
    (embOutcome : Except String (List ℚ)) : Option (List ℚ) :=
  if flags.bert_model = false ∨ flags.bert_tokenizer = false then none
  else
    match embOutcome with
    | Except.ok emb => some emb
    | Except.error _ => none

/-- `severity_map.get(prediction, "Unknown")` with
`severity_map = {0: "Minimal", 1: "Mild", 2: "Moderate", 3: "Severe"}`
(lines 247–248). -/
def severityMapGet (prediction : ℤ) : String :=
  if prediction = 0 then "Minimal"
  else if prediction = 1 then "Mild"
  else if prediction = 2 then "Moderate"
  else if prediction = 3 then "Severe"
  else "Unknown"

/-- The dict returned for too-short text (lines 203–207). -/
def journalTooShortResult : JournalResult :=
  { error := some "Text too short for analysis"
    text_length := none, word_count := none, vader_scores := none
    ml_prediction := none, predicted_severity := none, confidence := none
    bert_embedding := none, recommendations := none, ml_error := none
    method := none, analysis_type := "Journal" }

/-- The initial `results` dict of `analyze_journal_text` (lines 212–218). -/
def journalInitResults (vader_scores : VaderScores) (text : String) :
    JournalResult :=
  { error := none
    text_length := some text.length
    word_count := some (wordCount text)
    vader_scores := some vader_scores
    ml_prediction := none, predicted_severity := none, confidence := none
    bert_embedding := none, recommendations := none, ml_error := none
    method := none, analysis_type := "Journal" }

/-- The ML branch of `analyze_journal_text` (lines 220–261): runs only when
`model_loaded`; on a usable embedding and a successful feature-fusion /
scaling / prediction step it adds the prediction keys, a raised exception in
that step is caught and recorded as `ml_error`, and a missing embedding
leaves `results` untouched. -/
def journalMLStage (flags : MLFlags)
    (embOutcome : Except String (List ℚ))
    (mlOutcome : Except String (ℤ × ℚ))
    (vader_scores : VaderScores) (results : JournalResult) : JournalResult :=
  if flags.model_loaded = true then
    match get_bert_embedding flags embOutcome with
    | some bert_embedding =>
      match mlOutcome with
      | Except.ok (prediction, confidence) =>
        let predicted_severity := severityMapGet prediction
        { results with
          ml_prediction := some prediction
          predicted_severity := some predicted_severity
          confidence := some confidence
          bert_embedding := some bert_embedding
          recommendations :=
            some (_get_journal_recommendations predicted_severity vader_scores) }
      | Except.error e => { results with ml_error := some e }
    | none => results
  else results

/-- The fallback stage of `analyze_journal_text` (lines 262–264): when no
`predicted_severity` key was set, merge in `_fallback_analysis`. -/
def journalFallbackStage (vader_scores : VaderScores)
    (results : JournalResult) : JournalResult :=
  if results.predicted_severity = none then
    let fb := _fallback_analysis vader_scores
    { results with
      predicted_severity := some fb.predicted_severity
      confidence := some fb.confidence
      method := some fb.method
      recommendations := some fb.recommendations }
  else results

/-- `MLService.analyze_journal_text` (lines 201–266).  `embOutcome` and
`mlOutcome` are the outcomes of the two external ML stages (see the module
docstring); `vader` is the value of `get_vader_scores(text)`. -/
def analyze_journal_text (flags : MLFlags)
    (embOutcome : Except String (List ℚ))
    (mlOutcome : Except String (ℤ × ℚ))
    (vader : VaderScores) (text : String) : JournalResult :=
  if text.isEmpty = true ∨ (pyStrip text).length < 10 then
    journalTooShortResult
  else
    journalFallbackStage vader
      (journalMLStage flags embOutcome mlOutcome vader
        (journalInitResults vader text))

end MLService

namespace MLService

/- Sanity checks on concrete inputs (spec §8 scenarios). -/

example : (analyze_phq9 [0, 0, 0, 0, 0, 0, 0, 0, 0]).isOk = true := by decide

example :
    (analyze_phq9 [3, 3, 3, 3, 2, 2, 1, 0, 1] =
      Except.ok
        { total_score := 18
          max_score := 27
          severity := "Moderately Severe"
          description := "Moderately severe depression"
          recommendations :=
            urgentAdvisory :: phq9BaseRecs "Moderately Severe"
          analysis_type := "PHQ-9" }) := by rfl

example : (analyze_phq9 [1, 1, 1]).isOk = false := by decide

example :
    (analyze_journal_text ⟨true, true, true⟩ (Except.error "boom")
      (Except.ok (2, 0.9)) ⟨0, 0, 1, 0⟩ "short").error =
      some "Text too short for analysis" := by decide

example :
    (analyze_journal_text ⟨false, false, false⟩ (Except.error "boom")
      (Except.ok (2, 0.9)) ⟨0, 0, 1, 0⟩
      "a perfectly ordinary journal entry").method = some "rule_based" := by decide

example :
    (analyze_journal_text ⟨true, true, true⟩ (Except.ok [1, 2])
      (Except.ok (2, 0.9)) ⟨0, 0.5, 0.5, -0.8⟩
      "a perfectly ordinary journal entry").predicted_severity =
      some "Moderate" := by decide

example :
    (analyze_journal_text ⟨true, true, true⟩ (Except.ok [1, 2])
      (Except.error "classifier exploded") ⟨0.5, 0, 0.5, 0.8⟩
      "a perfectly ordinary journal entry").ml_error =
      some "classifier exploded" := by decide

example :
    (analyze_journal_text ⟨true, true, true⟩ (Except.error "embedding failed")
      (Except.ok (2, 0.9)) ⟨0.5, 0, 0.5, 0.8⟩
      "a perfectly ordinary journal entry").ml_error = none := by decide

example :
    (_fallback_analysis ⟨0.5, 0, 0.5, 0.8⟩).predicted_severity =
      "Minimal" := by norm_num [_fallback_analysis]

/-! ## Helper lemmas -/

lemma list_sum_le_mul_length (l : List ℤ) (b : ℤ) (h : ∀ x ∈ l, x ≤ b) :
    l.sum ≤ b * l.length := by
  induction l with
  | nil => simp
  | cons a t ih =>
    have ha : a ≤ b := h a (by simp)
    have ht : t.sum ≤ b * t.length := ih fun x hx => h x (by simp [hx])
    simp only [List.sum_cons, List.length_cons]
    push_cast
    linarith

lemma list_sum_nonneg_of_mem (l : List ℤ) (h : ∀ x ∈ l, 0 ≤ x) :
    0 ≤ l.sum := by
  induction l with
  | nil => simp
  | cons a t ih =>
    have ha : 0 ≤ a := h a (by simp)
    have ht : 0 ≤ t.sum := ih fun x hx => h x (by simp [hx])
    simp only [List.sum_cons]
    linarith

lemma phq9Severity_minimal (t : ℤ) :
    (phq9Severity t).1 = "Minimal" ↔ t ≤ 4 := by
  unfold phq9Severity
  split_ifs with h1 h2 h3 h4 <;> simp_all

lemma phq9Severity_mild (t : ℤ) :
    (phq9Severity t).1 = "Mild" ↔ 5 ≤ t ∧ t ≤ 9 := by
  unfold phq9Severity
  split_ifs with h1 h2 h3 h4 <;> simp_all <;> omega

lemma phq9Severity_moderate (t : ℤ) :
    (phq9Severity t).1 = "Moderate" ↔ 10 ≤ t ∧ t ≤ 14 := by
  unfold phq9Severity
  split_ifs with h1 h2 h3 h4 <;> simp_all <;> omega

lemma phq9Severity_modsevere (t : ℤ) :
    (phq9Severity t).1 = "Moderately Severe" ↔ 15 ≤ t ∧ t ≤ 19 := by
  unfold phq9Severity
  split_ifs with h1 h2 h3 h4 <;> simp_all <;> omega

lemma phq9Severity_severe (t : ℤ) :
    (phq9Severity t).1 = "Severe" ↔ 20 ≤ t := by
  unfold phq9Severity
  split_ifs with h1 h2 h3 h4 <;> simp_all <;> omega

lemma analyze_phq9_ok (responses : List ℤ) (h9 : responses.length = 9) :
    analyze_phq9 responses =
      Except.ok
        { total_score := responses.sum
          max_score := 27
          severity := (phq9Severity responses.sum).1
          description := (phq9Severity responses.sum).2
          recommendations :=
            _get_phq9_recommendations (phq9Severity responses.sum).1 responses.sum
          analysis_type := "PHQ-9" } := by
  unfold analyze_phq9
  rw [if_neg (by omega)]

/-! ## Claim C1 -/

/-- Claim C1 as frozen is false on the code: `[5,0,0,0,0,0,0,0,0]` has
length 9 and contains the value 5, which lies outside `[0,3]`, yet
`analyze_phq9` does not raise a validation error — it silently produces a
score (total 5, severity "Mild"). -/
theorem claim1_counterexample :
    ¬ ((5 : ℤ) ≤ 3) ∧
    (analyze_phq9 [5, 0, 0, 0, 0, 0, 0, 0, 0]).isOk = true ∧
    (analyze_phq9 [5, 0, 0, 0, 0, 0, 0, 0, 0]).toOption.map
      PHQ9Result.total_score = some 5 := by
  refine ⟨by decide, ?_, ?_⟩ <;> decide

/-- Claim C1 (amended): `analyze_phq9` raises its validation error exactly
for response lists whose length is not 9; a length-9 list is scored without
any range check on the values — values outside `[0,3]` are neither rejected
nor corrected, and the returned total is the plain sum of the inputs. -/
theorem claim1_length_validation_only (responses : List ℤ) :
    (responses.length ≠ 9 →
      analyze_phq9 responses =
        Except.error "PHQ-9 requires exactly 9 responses") ∧
    (responses.length = 9 →
      (analyze_phq9 responses).toOption.map PHQ9Result.total_score =
        some responses.sum) := by
  constructor
  · intro h
    unfold analyze_phq9
    rw [if_pos h]
  · intro h
    rw [analyze_phq9_ok responses h]
    rfl

/-- Witness for `claim1_length_validation_only` at concrete inputs: an
8-element list is rejected, and a 9-element list containing 100 is scored
with total 100·9 = 900. -/
theorem claim1_witness :
    analyze_phq9 [1, 1, 1, 1, 1, 1, 1, 1] =
      Except.error "PHQ-9 requires exactly 9 responses" ∧
    (analyze_phq9 [100, 100, 100, 100, 100, 100, 100, 100, 100]).toOption.map
      PHQ9Result.total_score = some 900 :=
  ⟨(claim1_length_validation_only [1, 1, 1, 1, 1, 1, 1, 1]).1 (by decide),
   by
    have h :=
      (claim1_length_validation_only
        [100, 100, 100, 100, 100, 100, 100, 100, 100]).2 (by decide)
    rw [h]
    decide⟩

/-! ## Claim C2 -/

/-- Claim C2: for every sequence of exactly 9 integers each in `[0,3]`,
`analyze_phq9` succeeds with `total_score` equal to the sum of the values
(hence in `[0,27]`), and the severity label is determined by `total_score`
through the inclusive, non-overlapping breakpoints ≤4 Minimal, 5–9 Mild,
10–14 Moderate, 15–19 Moderately Severe, ≥20 Severe. -/
theorem claim2_phq9_score_and_severity_bands (responses : List ℤ)
    (h9 : responses.length = 9)
    (hr : ∀ x ∈ responses, 0 ≤ x ∧ x ≤ 3) :
    ∃ r : PHQ9Result, analyze_phq9 responses = Except.ok r ∧
      r.total_score = responses.sum ∧
      0 ≤ r.total_score ∧ r.total_score ≤ 27 ∧
      (r.severity = "Minimal" ↔ r.total_score ≤ 4) ∧
      (r.severity = "Mild" ↔ 5 ≤ r.total_score ∧ r.total_score ≤ 9) ∧
      (r.severity = "Moderate" ↔ 10 ≤ r.total_score ∧ r.total_score ≤ 14) ∧
      (r.severity = "Moderately Severe" ↔
        15 ≤ r.total_score ∧ r.total_score ≤ 19) ∧
      (r.severity = "Severe" ↔ 20 ≤ r.total_score) := by
  have h0 : 0 ≤ responses.sum :=
    list_sum_nonneg_of_mem responses fun x hx => (hr x hx).1
  have h27 : responses.sum ≤ 27 := by
    have h := list_sum_le_mul_length responses 3 fun x hx => (hr x hx).2
    rw [h9] at h
    norm_num at h
    exact h
  refine ⟨_, analyze_phq9_ok responses h9, rfl, h0, h27,
    phq9Severity_minimal _, phq9Severity_mild _, phq9Severity_moderate _,
    phq9Severity_modsevere _, phq9Severity_severe _⟩

/-- Witness for `claim2_phq9_score_and_severity_bands` at the spec's §8
scenario `[3,3,3,3,2,2,1,0,1]` (total 18, "Moderately Severe"). -/
theorem claim2_witness :
    ∃ r : PHQ9Result,
      analyze_phq9 [3, 3, 3, 3, 2, 2, 1, 0, 1] = Except.ok r ∧
      r.total_score = [3, 3, 3, 3, 2, 2, 1, 0, 1].sum ∧
      0 ≤ r.total_score ∧ r.total_score ≤ 27 ∧
      (r.severity = "Minimal" ↔ r.total_score ≤ 4) ∧
      (r.severity = "Mild" ↔ 5 ≤ r.total_score ∧ r.total_score ≤ 9) ∧
      (r.severity = "Moderate" ↔ 10 ≤ r.total_score ∧ r.total_score ≤ 14) ∧
      (r.severity = "Moderately Severe" ↔
        15 ≤ r.total_score ∧ r.total_score ≤ 19) ∧
      (r.severity = "Severe" ↔ 20 ≤ r.total_score) :=
  claim2_phq9_score_and_severity_bands [3, 3, 3, 3, 2, 2, 1, 0, 1]
    (by decide) (by decide)

/-! ## Claim C3 -/

/-- Claim C3: `_fallback_analysis` is a pure deterministic function of the
sentiment scores; it assigns Moderate when `compound ≤ -0.5` or
`negative ≥ 0.4`, otherwise Mild when `compound ≤ -0.2` or
`negative ≥ 0.2`, otherwise Minimal — in that first-match order — always
succeeds, and always attaches confidence exactly 0.7 (with method
"rule_based"). -/
theorem claim3_fallback_thresholds (vs : VaderScores) :
    (_fallback_analysis vs).confidence = 0.7 ∧
    (_fallback_analysis vs).method = "rule_based" ∧
    ((vs.compound ≤ -0.5 ∨ vs.negative ≥ 0.4) →
      (_fallback_analysis vs).predicted_severity = "Moderate") ∧
    (¬(vs.compound ≤ -0.5 ∨ vs.negative ≥ 0.4) →
      (vs.compound ≤ -0.2 ∨ vs.negative ≥ 0.2) →
      (_fallback_analysis vs).predicted_severity = "Mild") ∧
    (¬(vs.compound ≤ -0.5 ∨ vs.negative ≥ 0.4) →
      ¬(vs.compound ≤ -0.2 ∨ vs.negative ≥ 0.2) →
      (_fallback_analysis vs).predicted_severity = "Minimal") := by
  refine ⟨rfl, rfl, fun h1 => ?_, fun h1 h2 => ?_, fun h1 h2 => ?_⟩
  · show (if vs.compound ≤ -0.5 ∨ vs.negative ≥ 0.4 then "Moderate"
      else if vs.compound ≤ -0.2 ∨ vs.negative ≥ 0.2 then "Mild"
      else "Minimal") = "Moderate"
    rw [if_pos h1]
  · show (if vs.compound ≤ -0.5 ∨ vs.negative ≥ 0.4 then "Moderate"
      else if vs.compound ≤ -0.2 ∨ vs.negative ≥ 0.2 then "Mild"
      else "Minimal") = "Mild"
    rw [if_neg h1, if_pos h2]
  · show (if vs.compound ≤ -0.5 ∨ vs.negative ≥ 0.4 then "Moderate"
      else if vs.compound ≤ -0.2 ∨ vs.negative ≥ 0.2 then "Mild"
      else "Minimal") = "Minimal"
    rw [if_neg h1, if_neg h2]

/-- Witness for `claim3_fallback_thresholds`: compound −0.6 (second
disjunct false) lands in Moderate with confidence 0.7. -/
theorem claim3_witness :
    (_fallback_analysis ⟨0, 0, 1, -0.6⟩).confidence = 0.7 ∧
    (_fallback_analysis ⟨0, 0, 1, -0.6⟩).method = "rule_based" ∧
    (_fallback_analysis ⟨0, 0, 1, -0.6⟩).predicted_severity = "Moderate" := by
  have h := claim3_fallback_thresholds ⟨0, 0, 1, -0.6⟩
  exact ⟨h.1, h.2.1, h.2.2.1 (Or.inl (by norm_num))⟩

/-! ## Claim C10 -/

/-- The order Minimal < Mild < Moderate from claim C10, as a rank. -/
def severityRank (severity : String) : ℕ :=
  if severity = "Minimal" then 0
  else if severity = "Mild" then 1
  else if severity = "Moderate" then 2
  else 3

lemma fallback_rank (s : VaderScores) :
    severityRank (_fallback_analysis s).predicted_severity =
      if s.compound ≤ -0.5 ∨ s.negative ≥ 0.4 then 2
      else if s.compound ≤ -0.2 ∨ s.negative ≥ 0.2 then 1
      else 0 := by
  show severityRank
      (if s.compound ≤ -0.5 ∨ s.negative ≥ 0.4 then "Moderate"
        else if s.compound ≤ -0.2 ∨ s.negative ≥ 0.2 then "Mild"
        else "Minimal") = _
  split_ifs <;> simp [severityRank]

/-- Claim C10: the rule-based estimator is monotone in sentiment
negativity — lowering `compound` and raising `negative` can only keep or
raise the assigned severity in the order Minimal < Mild < Moderate. -/
theorem claim10_fallback_monotone (s s' : VaderScores)
    (hc : s'.compound ≤ s.compound) (hn : s.negative ≤ s'.negative) :
    severityRank (_fallback_analysis s).predicted_severity ≤
      severityRank (_fallback_analysis s').predicted_severity := by
  have mono1 : (s.compound ≤ -0.5 ∨ s.negative ≥ 0.4) →
      (s'.compound ≤ -0.5 ∨ s'.negative ≥ 0.4) := fun h =>
    h.elim (fun h => Or.inl (le_trans hc h)) fun h => Or.inr (le_trans h hn)
  have mono2 : (s.compound ≤ -0.2 ∨ s.negative ≥ 0.2) →
      (s'.compound ≤ -0.2 ∨ s'.negative ≥ 0.2) := fun h =>
    h.elim (fun h => Or.inl (le_trans hc h)) fun h => Or.inr (le_trans h hn)
  rw [fallback_rank, fallback_rank]
  by_cases hA : s.compound ≤ -0.5 ∨ s.negative ≥ 0.4
  · rw [if_pos hA, if_pos (mono1 hA)]
  · rw [if_neg hA]
    by_cases hB : s.compound ≤ -0.2 ∨ s.negative ≥ 0.2
    · rw [if_pos hB]
      by_cases hA' : s'.compound ≤ -0.5 ∨ s'.negative ≥ 0.4
      · rw [if_pos hA']
        omega
      · rw [if_neg hA', if_pos (mono2 hB)]
    · rw [if_neg hB]
      split_ifs <;> omega

/-- Witness for `claim10_fallback_monotone`: a neutral text versus one with
compound −0.6 and negative 0.5. -/
theorem claim10_witness :
    severityRank (_fallback_analysis ⟨0, 0, 1, 0⟩).predicted_severity ≤
      severityRank (_fallback_analysis ⟨0, 0.5, 0.5, -0.6⟩).predicted_severity :=
  claim10_fallback_monotone ⟨0, 0, 1, 0⟩ ⟨0, 0.5, 0.5, -0.6⟩
    (by norm_num) (by norm_num)

/-! ## Claim C7 -/

lemma urgent_not_in_phq9_base (severity : String) :
    urgentAdvisory ∉ phq9BaseRecs severity := by
  unfold phq9BaseRecs
  split_ifs <;> decide

/-- Claim C7: for every valid questionnaire input, the recommendation list
starts with the urgent-escalation advisory exactly when `total_score ≥ 15`
(whatever the band), and for `total_score < 15` the advisory is absent. -/
theorem claim7_urgent_advisory (responses : List ℤ)
    (h9 : responses.length = 9)
    (_hr : ∀ x ∈ responses, 0 ≤ x ∧ x ≤ 3) :
    ∃ r : PHQ9Result, analyze_phq9 responses = Except.ok r ∧
      (15 ≤ r.total_score →
        r.recommendations.head? = some urgentAdvisory) ∧
      (r.total_score < 15 → urgentAdvisory ∉ r.recommendations) := by
  refine ⟨_, analyze_phq9_ok responses h9, fun h => ?_, fun h => ?_⟩
  · have h' : (15 : ℤ) ≤ responses.sum := h
    show (_get_phq9_recommendations (phq9Severity responses.sum).1
      responses.sum).head? = some urgentAdvisory
    unfold _get_phq9_recommendations
    rw [if_pos h']
    rfl
  · have h' : responses.sum < (15 : ℤ) := h
    show urgentAdvisory ∉
      _get_phq9_recommendations (phq9Severity responses.sum).1 responses.sum
    unfold _get_phq9_recommendations
    rw [if_neg (by omega)]
    exact urgent_not_in_phq9_base _

/-- Witness for `claim7_urgent_advisory` at the score-18 input
`[3,3,3,3,2,2,1,0,1]`. -/
theorem claim7_witness :
    ∃ r : PHQ9Result,
      analyze_phq9 [3, 3, 3, 3, 2, 2, 1, 0, 1] = Except.ok r ∧
      (15 ≤ r.total_score →
        r.recommendations.head? = some urgentAdvisory) ∧
      (r.total_score < 15 → urgentAdvisory ∉ r.recommendations) :=
  claim7_urgent_advisory [3, 3, 3, 3, 2, 2, 1, 0, 1] (by decide) (by decide)

/-! ## Claim C8 -/

lemma negAdvisory_not_in_journal_base (severity : String) :
    negativeAdvisory ∉ journalBaseRecs severity := by
  unfold journalBaseRecs
  split_ifs <;> decide

lemma posAdvisory_not_in_journal_base (severity : String) :
    positiveAdvisory ∉ journalBaseRecs severity := by
  unfold journalBaseRecs
  split_ifs <;> decide

lemma negAdvisory_ne_posAdvisory : negativeAdvisory ≠ positiveAdvisory := by
  decide

/-- Claim C8: in the journal recommendation mapping, the
"challenge negative thought patterns" advisory is present exactly when
`negative > 0.3`, the "engage in pleasant activities" advisory exactly when
`positive < 0.1`; they are appended to the band's base list independently,
and both fire together when both conditions hold. -/
theorem claim8_journal_advisories (severity : String) (vs : VaderScores) :
    (negativeAdvisory ∈ _get_journal_recommendations severity vs ↔
      vs.negative > 0.3) ∧
    (positiveAdvisory ∈ _get_journal_recommendations severity vs ↔
      vs.positive < 0.1) ∧
    (vs.negative > 0.3 → vs.positive < 0.1 →
      _get_journal_recommendations severity vs =
        journalBaseRecs severity ++ [negativeAdvisory, positiveAdvisory]) := by
  unfold _get_journal_recommendations
  by_cases hn : vs.negative > 0.3 <;> by_cases hp : vs.positive < 0.1 <;>
    simp [hn, hp, negAdvisory_not_in_journal_base,
      posAdvisory_not_in_journal_base, negAdvisory_ne_posAdvisory,
      negAdvisory_ne_posAdvisory.symm]

/-- Witness for `claim8_journal_advisories`: with negative 0.4 and
positive 0, both advisories fire on the Mild band. -/
theorem claim8_witness :
    negativeAdvisory ∈ _get_journal_recommendations "Mild" ⟨0, 0.4, 0.6, 0⟩ ∧
    positiveAdvisory ∈ _get_journal_recommendations "Mild" ⟨0, 0.4, 0.6, 0⟩ ∧
    _get_journal_recommendations "Mild" ⟨0, 0.4, 0.6, 0⟩ =
      journalBaseRecs "Mild" ++ [negativeAdvisory, positiveAdvisory] := by
  have h := claim8_journal_advisories "Mild" ⟨0, 0.4, 0.6, 0⟩
  exact ⟨h.1.mpr (by norm_num), h.2.1.mpr (by norm_num),
    h.2.2 (by norm_num) (by norm_num)⟩

/-! ## Claim C9 -/

/-- Claim C9 (implicit): an unmapped classifier class code yields the label
"Unknown", and every severity label outside {Minimal, Mild, Moderate} —
"Unknown" included — receives the Severe-band base recommendations (the
`else` branch of `_get_journal_recommendations`). -/
theorem claim9_unknown_severity_treated_as_severe :
    (∀ p : ℤ, p ≠ 0 → p ≠ 1 → p ≠ 2 → p ≠ 3 →
      severityMapGet p = "Unknown") ∧
    (∀ (severity : String) (vs : VaderScores),
      severity ≠ "Minimal" → severity ≠ "Mild" → severity ≠ "Moderate" →
      _get_journal_recommendations severity vs =
        _get_journal_recommendations "Severe" vs) := by
  constructor
  · intro p h0 h1 h2 h3
    unfold severityMapGet
    rw [if_neg h0, if_neg h1, if_neg h2, if_neg h3]
  · intro severity vs h1 h2 h3
    have hbase : journalBaseRecs severity = journalBaseRecs "Severe" := by
      unfold journalBaseRecs
      rw [if_neg h1, if_neg h2, if_neg h3]
      rfl
    unfold _get_journal_recommendations
    rw [hbase]

/-- Witness for `claim9_unknown_severity_treated_as_severe` at the unmapped
class code 7 and the label "Unknown" it produces. -/
theorem claim9_witness :
    severityMapGet 7 = "Unknown" ∧
    _get_journal_recommendations "Unknown" ⟨0.5, 0.5, 0, 0⟩ =
      _get_journal_recommendations "Severe" ⟨0.5, 0.5, 0, 0⟩ :=
  ⟨claim9_unknown_severity_treated_as_severe.1 7
      (by decide) (by decide) (by decide) (by decide),
   claim9_unknown_severity_treated_as_severe.2 "Unknown" ⟨0.5, 0.5, 0, 0⟩
      (by decide) (by decide) (by decide)⟩

/-! ## Stage lemmas for `analyze_journal_text` -/

lemma journalMLStage_not_loaded (flags : MLFlags)
    (e : Except String (List ℚ)) (m : Except String (ℤ × ℚ))
    (v : VaderScores) (r : JournalResult)
    (hml : flags.model_loaded = false) :
    journalMLStage flags e m v r = r := by
  unfold journalMLStage
  rw [if_neg (by simp [hml])]

lemma journalMLStage_ml_error (flags : MLFlags) (emb : List ℚ) (msg : String)
    (v : VaderScores) (r : JournalResult)
    (hbm : flags.bert_model = true) (hbt : flags.bert_tokenizer = true)
    (hml : flags.model_loaded = true) :
    journalMLStage flags (Except.ok emb) (Except.error msg) v r =
      { r with ml_error := some msg } := by
  unfold journalMLStage get_bert_embedding
  rw [if_pos hml, if_neg (by simp [hbm, hbt])]

lemma journalMLStage_no_embedding (flags : MLFlags) (msg : String)
    (m : Except String (ℤ × ℚ)) (v : VaderScores) (r : JournalResult) :
    journalMLStage flags (Except.error msg) m v r = r := by
  unfold journalMLStage get_bert_embedding
  split_ifs <;> rfl

lemma journalFallbackStage_none (v : VaderScores) (r : JournalResult)
    (h : r.predicted_severity = none) :
    journalFallbackStage v r =
      { r with
        predicted_severity := some (_fallback_analysis v).predicted_severity
        confidence := some (_fallback_analysis v).confidence
        method := some (_fallback_analysis v).method
        recommendations := some (_fallback_analysis v).recommendations } := by
  unfold journalFallbackStage
  rw [if_pos h]

/-! ## Claim C6 -/

/-- Claim C6: for every text whose stripped length is below 10 characters
(the empty text included), `analyze_journal_text` returns the too-short
error dict — no VADER scores, no prediction, no confidence, no
recommendations — and the result does not depend on the sentiment scorer,
the embedding stage or the classifier (all of which are universally
quantified on the left and absent on the right). -/
theorem claim6_too_short_no_analysis (flags : MLFlags)
    (e : Except String (List ℚ)) (m : Except String (ℤ × ℚ))
    (v : VaderScores) (text : String)
    (h : (pyStrip text).length < 10) :
    analyze_journal_text flags e m v text =
      { error := some "Text too short for analysis"
        text_length := none, word_count := none, vader_scores := none
        ml_prediction := none, predicted_severity := none, confidence := none
        bert_embedding := none, recommendations := none, ml_error := none
        method := none, analysis_type := "Journal" } := by
  unfold analyze_journal_text
  rw [if_pos (Or.inr h)]
  rfl

/-- Witness for `claim6_too_short_no_analysis` at the empty text (with all
artifacts nominally loaded). -/
theorem claim6_witness :
    analyze_journal_text ⟨true, true, true⟩ (Except.ok [1])
      (Except.ok (3, 0.95)) ⟨0.2, 0.2, 0.6, 0.1⟩ "" =
      { error := some "Text too short for analysis"
        text_length := none, word_count := none, vader_scores := none
        ml_prediction := none, predicted_severity := none, confidence := none
        bert_embedding := none, recommendations := none, ml_error := none
        method := none, analysis_type := "Journal" } :=
  claim6_too_short_no_analysis ⟨true, true, true⟩ (Except.ok [1])
    (Except.ok (3, 0.95)) ⟨0.2, 0.2, 0.6, 0.1⟩ "" (by decide)

/-! ## Claim C5 -/

/-- Claim C5: when `model_loaded` is false, `analyze_journal_text` on
sufficiently long text never consults the embedding or classification
outcomes (the result is the same for any two of them), and the result is
the rule-based fallback, marked `method = "rule_based"`. -/
theorem claim5_not_loaded_rule_based (flags : MLFlags)
    (e1 e2 : Except String (List ℚ)) (m1 m2 : Except String (ℤ × ℚ))
    (v : VaderScores) (text : String)
    (hml : flags.model_loaded = false)
    (hne : text.isEmpty = false) (hlen : 10 ≤ (pyStrip text).length) :
    analyze_journal_text flags e1 m1 v text =
      analyze_journal_text flags e2 m2 v text ∧
    (analyze_journal_text flags e1 m1 v text).method = some "rule_based" ∧
    (analyze_journal_text flags e1 m1 v text).predicted_severity =
      some (_fallback_analysis v).predicted_severity ∧
    (analyze_journal_text flags e1 m1 v text).confidence =
      some (_fallback_analysis v).confidence ∧
    (analyze_journal_text flags e1 m1 v text).recommendations =
      some (_fallback_analysis v).recommendations := by
  have hcond : ¬(text.isEmpty = true ∨ (pyStrip text).length < 10) := by
    simp only [hne, Bool.false_eq_true, false_or]
    omega
  have key : ∀ (e : Except String (List ℚ)) (m : Except String (ℤ × ℚ)),
      analyze_journal_text flags e m v text =
        journalFallbackStage v (journalInitResults v text) := by
    intro e m
    unfold analyze_journal_text
    rw [if_neg hcond, journalMLStage_not_loaded flags e m v _ hml]
  refine ⟨by rw [key e1 m1, key e2 m2], ?_, ?_, ?_, ?_⟩
  · rw [key e1 m1, journalFallbackStage_none v _ rfl]
    rfl
  all_goals rw [key e1 m1, journalFallbackStage_none v _ rfl]

/-- Witness for `claim5_not_loaded_rule_based`: two maximally different
ML-stage outcomes give the same rule-based result on a long neutral text. -/
theorem claim5_witness :
    analyze_journal_text ⟨true, true, false⟩ (Except.ok [1])
      (Except.ok (3, 0.95)) ⟨0, 0, 1, 0⟩
      "a perfectly ordinary journal entry" =
      analyze_journal_text ⟨true, true, false⟩ (Except.error "boom")
        (Except.error "boom") ⟨0, 0, 1, 0⟩
        "a perfectly ordinary journal entry" ∧
    (analyze_journal_text ⟨true, true, false⟩ (Except.ok [1])
      (Except.ok (3, 0.95)) ⟨0, 0, 1, 0⟩
      "a perfectly ordinary journal entry").method = some "rule_based" ∧
    (analyze_journal_text ⟨true, true, false⟩ (Except.ok [1])
      (Except.ok (3, 0.95)) ⟨0, 0, 1, 0⟩
      "a perfectly ordinary journal entry").predicted_severity =
      some (_fallback_analysis ⟨0, 0, 1, 0⟩).predicted_severity ∧
    (analyze_journal_text ⟨true, true, false⟩ (Except.ok [1])
      (Except.ok (3, 0.95)) ⟨0, 0, 1, 0⟩
      "a perfectly ordinary journal entry").confidence =
      some (_fallback_analysis ⟨0, 0, 1, 0⟩).confidence ∧
    (analyze_journal_text ⟨true, true, false⟩ (Except.ok [1])
      (Except.ok (3, 0.95)) ⟨0, 0, 1, 0⟩
      "a perfectly ordinary journal entry").recommendations =
      some (_fallback_analysis ⟨0, 0, 1, 0⟩).recommendations :=
  claim5_not_loaded_rule_based ⟨true, true, false⟩ (Except.ok [1])
    (Except.error "boom") (Except.ok (3, 0.95)) (Except.error "boom")
    ⟨0, 0, 1, 0⟩ "a perfectly ordinary journal entry"
    (by decide) (by decide) (by decide)

/-! ## Claim C4 -/

/-- Claim C4 as frozen is false on the code: with all artifacts loaded and a
runtime failure during embedding extraction (the `try` block of
`get_bert_embedding` raising), the result carries NO `ml_error` annotation —
the exception is caught inside `get_bert_embedding`, which merely returns
`None` — even though the function does silently fall back to rule-based
estimation. -/
theorem claim4_counterexample :
    (analyze_journal_text ⟨true, true, true⟩ (Except.error "embedding failure")
      (Except.ok (2, 0.9)) ⟨0, 0, 1, 0⟩
      "a perfectly ordinary journal entry").ml_error = none ∧
    (analyze_journal_text ⟨true, true, true⟩ (Except.error "embedding failure")
      (Except.ok (2, 0.9)) ⟨0, 0, 1, 0⟩
      "a perfectly ordinary journal entry").method = some "rule_based" := by
  constructor <;> decide

/-- Claim C4 (amended): on sufficiently long text with all artifacts loaded,
an exception in the feature-fusion / scaling / classification step is caught
locally, recorded as an `ml_error` annotation, and converted into the
rule-based fallback, so the caller still receives a usable severity result;
an exception during embedding extraction is caught inside
`get_bert_embedding` (surfacing only as a missing embedding), so no
`ml_error` annotation is recorded, and the function likewise falls back to
rule-based estimation and returns a usable severity result instead of
raising. -/
theorem claim4_ml_failure_fallback (flags : MLFlags) (emb : List ℚ)
    (m : Except String (ℤ × ℚ)) (v : VaderScores) (text msg : String)
    (hml : flags.model_loaded = true)
    (hbm : flags.bert_model = true) (hbt : flags.bert_tokenizer = true)
    (hne : text.isEmpty = false) (hlen : 10 ≤ (pyStrip text).length) :
    ((analyze_journal_text flags (Except.ok emb) (Except.error msg) v
        text).ml_error = some msg ∧
      (analyze_journal_text flags (Except.ok emb) (Except.error msg) v
        text).predicted_severity =
        some (_fallback_analysis v).predicted_severity ∧
      (analyze_journal_text flags (Except.ok emb) (Except.error msg) v
        text).method = some "rule_based" ∧
      (analyze_journal_text flags (Except.ok emb) (Except.error msg) v
        text).error = none) ∧
    ((analyze_journal_text flags (Except.error msg) m v text).ml_error =
        none ∧
      (analyze_journal_text flags (Except.error msg) m v
        text).predicted_severity =
        some (_fallback_analysis v).predicted_severity ∧
      (analyze_journal_text flags (Except.error msg) m v text).method =
        some "rule_based" ∧
      (analyze_journal_text flags (Except.error msg) m v text).error =
        none) := by
  have hcond : ¬(text.isEmpty = true ∨ (pyStrip text).length < 10) := by
    simp only [hne, Bool.false_eq_true, false_or]
    omega
  have key1 : analyze_journal_text flags (Except.ok emb) (Except.error msg)
      v text =
      journalFallbackStage v
        { journalInitResults v text with ml_error := some msg } := by
    unfold analyze_journal_text
    rw [if_neg hcond, journalMLStage_ml_error flags emb msg v _ hbm hbt hml]
  have key2 : analyze_journal_text flags (Except.error msg) m v text =
      journalFallbackStage v (journalInitResults v text) := by
    unfold analyze_journal_text
    rw [if_neg hcond, journalMLStage_no_embedding flags msg m v _]
  constructor
  · rw [key1, journalFallbackStage_none v _ rfl]
    exact ⟨rfl, rfl, rfl, rfl⟩
  · rw [key2, journalFallbackStage_none v _ rfl]
    exact ⟨rfl, rfl, rfl, rfl⟩

/-- Witness for `claim4_ml_failure_fallback` on a concrete long text with a
concrete exception message. -/
theorem claim4_witness :
    ((analyze_journal_text ⟨true, true, true⟩ (Except.ok [1, 2])
        (Except.error "classifier exploded") ⟨0, 0, 1, 0⟩
        "a perfectly ordinary journal entry").ml_error =
        some "classifier exploded" ∧
      (analyze_journal_text ⟨true, true, true⟩ (Except.ok [1, 2])
        (Except.error "classifier exploded") ⟨0, 0, 1, 0⟩
        "a perfectly ordinary journal entry").predicted_severity =
        some (_fallback_analysis ⟨0, 0, 1, 0⟩).predicted_severity ∧
      (analyze_journal_text ⟨true, true, true⟩ (Except.ok [1, 2])
        (Except.error "classifier exploded") ⟨0, 0, 1, 0⟩
        "a perfectly ordinary journal entry").method = some "rule_based" ∧
      (analyze_journal_text ⟨true, true, true⟩ (Except.ok [1, 2])
        (Except.error "classifier exploded") ⟨0, 0, 1, 0⟩
        "a perfectly ordinary journal entry").error = none) ∧
    ((analyze_journal_text ⟨true, true, true⟩
        (Except.error "classifier exploded") (Except.ok (2, 0.9)) ⟨0, 0, 1, 0⟩
        "a perfectly ordinary journal entry").ml_error = none ∧
      (analyze_journal_text ⟨true, true, true⟩
        (Except.error "classifier exploded") (Except.ok (2, 0.9)) ⟨0, 0, 1, 0⟩
        "a perfectly ordinary journal entry").predicted_severity =
        some (_fallback_analysis ⟨0, 0, 1, 0⟩).predicted_severity ∧
      (analyze_journal_text ⟨true, true, true⟩
        (Except.error "classifier exploded") (Except.ok (2, 0.9)) ⟨0, 0, 1, 0⟩
        "a perfectly ordinary journal entry").method = some "rule_based" ∧
      (analyze_journal_text ⟨true, true, true⟩
        (Except.error "classifier exploded") (Except.ok (2, 0.9)) ⟨0, 0, 1, 0⟩
        "a perfectly ordinary journal entry").error = none) :=
  claim4_ml_failure_fallback ⟨true, true, true⟩ [1, 2] (Except.ok (2, 0.9))
    ⟨0, 0, 1, 0⟩ "a perfectly ordinary journal entry" "classifier exploded"
    (by decide) (by decide) (by decide) (by decide) (by decide)

end MLService
